import Mathlib

/-!
Shallow embedding of the request execution and lifecycle engine of the
GMHTTP-HarmonyOS repository (gmcurl/src/main/cpp/napi_gmcurl.cpp), together
with theorems settling the specification claims about it.

The C++ engine drives one libcurl transfer per request.  The parts embedded
here are the ones the claims are about:

* the process-wide cancellation map `mCancelRequestMap` guarded by
  `mCancel_mtx` (modelled as an association list with unique keys),
* `cancelRequest` and the registration performed in `Request`,
* `progress_callback` — the per-tick progress hook: upload-direction
  throttling, download-direction throttling, then the cancellation poll,
* the option-assembly phase of `ExecuteRequest` (method selection, progress
  wiring, upload/download file handling, resume range, fail-on-error,
  timeouts) and its result-capture phase after `curl_easy_perform`,
* `ParseHeaders` and the body-decoding branch of `CompleteCB`.

Machine integers (`int64_t` byte counts, `int32_t` request ids, CURLcode)
are modelled as `Int`; none of the embedded code paths can overflow them.
Timestamps (`std::chrono::steady_clock::time_point`) are modelled as `Nat`
nanosecond counts; `duration_cast<seconds>` truncates, which matches `Nat`
division.
-/

namespace GMCurl

/-- Association-list lookup; models `std::map::find` / `count`. -/
def alistFind {α β : Type} [DecidableEq α] : List (α × β) → α → Option β
  | [], _ => none
  | (k', v) :: rest, k => if k' = k then some v else alistFind rest k

/-- Association-list insert-or-assign; models `std::map::operator[]` with
assignment. -/
def alistSet {α β : Type} [DecidableEq α] : List (α × β) → α → β → List (α × β)
  | [], k, v => [(k, v)]
  | (k', v') :: rest, k, v => if k' = k then (k, v) :: rest else (k', v') :: alistSet rest k v

/-- Association-list erase; models `std::map::erase`.  A `std::map` never
holds duplicate keys, so removing every pair with the key is extensionally
the map operation. -/
def alistErase {α β : Type} [DecidableEq α] (r : List (α × β)) (k : α) : List (α × β) :=
  r.filter (fun p => decide (p.1 ≠ k))

/-- `FormData` struct of napi_gmcurl.cpp (multipart form field).  The raw
binary buffer is irrelevant to the claims; only the discriminating fields are
kept. -/
structure FormData where
  name : String := ""
  remoteFileName : String := ""
  filePath : String := ""
  contentType : String := ""
  dataStr : String := ""
  isDataArrayBuffer : Bool := false
deriving Repr, DecidableEq

/-- `ProgressData` struct of napi_gmcurl.cpp: one sample handed to the
thread-safe progress callback. -/
structure ProgressData where
  currentSize : Int
  totalSize : Int
deriving Repr, DecidableEq

/-- `HttpRequestParams` struct of napi_gmcurl.cpp (fields relevant to the
claims; file-stream pointers and scratch buffers are runtime handles with no
logical content). -/
structure HttpRequestParams where
  url : String := ""
  method : String := ""
  extraDataStr : String := ""
  downloadFilePath : String := ""
  uploadFilePath : String := ""
  resumeFromOffset : Int := 0
  isExtraDataArrayBuffer : Bool := false
  headers : List (String × String) := []
  readTimeout : Int := 0
  connectTimeout : Int := 0
  caPath : String := ""
  clientCertPath : String := ""
  response : String := ""
  responseCode : Int := 0
  responseHeaders : String := ""
  errorMsg : String := ""
  isDebug : Bool := false
  isTLCP : Bool := false
  verifyServer : Bool := true
  requestId : Int := 0
  formData : List FormData := []
  lastProgress : Int := 0
  lastTime : Nat := 0
deriving Repr, DecidableEq

/-- `RequestCallbackData` of napi_gmcurl.cpp: the per-request context handed
to the transfer hooks.  `hasTsfn` models whether the `tsfn` thread-safe
function member is non-null (an `onProgress` callback was registered). -/
structure RequestCallbackData where
  params : HttpRequestParams
  hasTsfn : Bool := false
deriving Repr, DecidableEq

/-- The process-wide cancellation map `mCancelRequestMap`. -/
abbrev Registry := List (Int × Bool)

/-- `cancelRequest` (napi_gmcurl.cpp, body of the lock-guarded section):
`if (mCancelRequestMap.count(requestId) > 0) mCancelRequestMap[requestId] = true;`. -/
def cancelRequest (r : Registry) (requestId : Int) : Registry :=
  if (alistFind r requestId).isSome then alistSet r requestId true else r

/-- Registration step of `Request` (napi_gmcurl.cpp): when the `requestID`
property reads as an int32 (`napi_get_value_int32 == napi_ok`, modelled as
`some id`), the id is stored and `mCancelRequestMap[requestId] = false` runs;
otherwise `requestId` defaults to 0 and the map is untouched.  Returns the
updated registry and the stored `params.requestId`. -/
def registerRequest (r : Registry) (requestIdProp : Option Int) : Registry × Int :=
  match requestIdProp with
  | some requestId => (alistSet r requestId false, requestId)
  | none => (r, 0)

/-- `duration_cast<seconds>(now - lastTime).count()` over nanosecond
steady-clock time points. -/
def elapsedSeconds (lastTime now : Nat) : Nat :=
  (now - lastTime) / 1000000000

/-- Condition of the upload-direction branch of `progress_callback`:
`(!uploadFilePath.empty() || !formData.empty()) && tsfn && ultotal > 0 &&
lastProgress != ulnow && (elapsed >= 1 || ulnow == ultotal)`. -/
def uploadShouldEmit (p : HttpRequestParams) (hasTsfn : Bool) (now : Nat)
    (ultotal ulnow : Int) : Prop :=
  (p.uploadFilePath ≠ "" ∨ p.formData ≠ []) ∧ hasTsfn = true ∧ 0 < ultotal ∧
    p.lastProgress ≠ ulnow ∧ (1 ≤ elapsedSeconds p.lastTime now ∨ ulnow = ultotal)

instance (p : HttpRequestParams) (hasTsfn : Bool) (now : Nat) (ultotal ulnow : Int) :
    Decidable (uploadShouldEmit p hasTsfn now ultotal ulnow) := by
  unfold uploadShouldEmit; exact inferInstance

/-- Condition of the download-direction branch of `progress_callback`:
`!downloadFilePath.empty() && tsfn && dltotal > 0 && lastProgress != dlnow &&
(elapsed >= 1 || dlnow == dltotal)`. -/
def downloadShouldEmit (p : HttpRequestParams) (hasTsfn : Bool) (now : Nat)
    (dltotal dlnow : Int) : Prop :=
  p.downloadFilePath ≠ "" ∧ hasTsfn = true ∧ 0 < dltotal ∧
    p.lastProgress ≠ dlnow ∧ (1 ≤ elapsedSeconds p.lastTime now ∨ dlnow = dltotal)

instance (p : HttpRequestParams) (hasTsfn : Bool) (now : Nat) (dltotal dlnow : Int) :
    Decidable (downloadShouldEmit p hasTsfn now dltotal dlnow) := by
  unfold downloadShouldEmit; exact inferInstance

/-- Upload branch of `progress_callback`: when it fires it hands
`(ulnow, ultotal)` to the thread-safe function and then updates
`lastTime = now; lastProgress = ulnow` on the shared per-request state. -/
def uploadStep (p : HttpRequestParams) (hasTsfn : Bool) (now : Nat)
    (ultotal ulnow : Int) : HttpRequestParams × List ProgressData :=
  if uploadShouldEmit p hasTsfn now ultotal ulnow then
    ({ p with lastTime := now, lastProgress := ulnow }, [⟨ulnow, ultotal⟩])
  else (p, [])

/-- Download branch of `progress_callback`: when it fires it hands
`(resumeFromOffset + dlnow, resumeFromOffset + dltotal)` to the thread-safe
function and then updates `lastTime = now; lastProgress = dlnow` on the
shared per-request state. -/
def downloadStep (p : HttpRequestParams) (hasTsfn : Bool) (now : Nat)
    (dltotal dlnow : Int) : HttpRequestParams × List ProgressData :=
  if downloadShouldEmit p hasTsfn now dltotal dlnow then
    ({ p with lastTime := now, lastProgress := dlnow },
     [⟨p.resumeFromOffset + dlnow, p.resumeFromOffset + dltotal⟩])
  else (p, [])

/-- The progress-reporting prefix of `progress_callback`: the upload branch
runs first and the download branch then reads the state the upload branch may
just have written (both branches share the single
`lastProgress`/`lastTime` pair of `HttpRequestParams`). -/
def throttleStep (p : HttpRequestParams) (hasTsfn : Bool) (now : Nat)
    (dltotal dlnow ultotal ulnow : Int) : HttpRequestParams × List ProgressData :=
  let s1 := uploadStep p hasTsfn now ultotal ulnow
  let s2 := downloadStep s1.1 hasTsfn now dltotal dlnow
  (s2.1, s1.2 ++ s2.2)

/-- Cancellation poll at the end of `progress_callback` (lock-guarded):
for a non-zero `requestId`, a found-and-true entry sets
`errorMsg = "Request canceled by user"`, erases the entry and makes the hook
return 1, which aborts the transfer. -/
def pollCancel (p : HttpRequestParams) (registry : Registry) :
    HttpRequestParams × Registry × Int :=
  if p.requestId ≠ 0 then
    match alistFind registry p.requestId with
    | some true =>
        ({ p with errorMsg := "Request canceled by user" },
         alistErase registry p.requestId, 1)
    | some false => (p, registry, 0)
    | none => (p, registry, 0)
  else (p, registry, 0)

/-- `progress_callback` of napi_gmcurl.cpp: one progress tick.  Returns the
updated per-request context, the updated cancellation registry, the samples
handed to the progress channel during the tick (upload first), and the hook's
return value (non-zero aborts the transfer). -/
def progress_callback (cb : RequestCallbackData) (registry : Registry) (now : Nat)
    (dltotal dlnow ultotal ulnow : Int) :
    RequestCallbackData × Registry × List ProgressData × Int :=
  let s := throttleStep cb.params cb.hasTsfn now dltotal dlnow ultotal ulnow
  let c := pollCancel s.1 registry
  ({ cb with params := c.1 }, c.2.1, s.2, c.2.2)

/-- CURLcode of a successful `curl_easy_perform`. -/
def CURLE_OK : Int := 0

/-- CURLcode returned when `CURLOPT_FAILONERROR` is set and the server
answered with an HTTP error status. -/
def CURLE_HTTP_RETURNED_ERROR : Int := 22

/-- CURLcode returned when a transfer hook (here `progress_callback`)
returned non-zero and aborted the transfer. -/
def CURLE_ABORTED_BY_CALLBACK : Int := 42

/-- Resume-offset computation of `Request` (napi_gmcurl.cpp): when a
`downloadFilePath` is given, `std::ifstream file(path)` is probed and, if
`file.good()`, `resumeFromOffset = getFileSize(path)` (the existing file's
byte size); otherwise the field keeps its default 0. -/
def computeResumeOffset (fileGood : Bool) (fileSize : Int) : Int :=
  if fileGood then fileSize else 0

/-- The curl options assembled by `ExecuteRequest` that the claims are about.
TLS wiring, debug tracing and header lists are configured in the same
function but are not the subject of any claim. -/
structure CurlConfig where
  httpGet : Bool := false
  post : Bool := false
  customRequest : String := ""
  progressEnabled : Bool := false
  timeoutSeconds : Int := 0
  connectTimeoutSeconds : Int := 0
  range : String := ""
  failOnError : Bool := false
  appendMode : Bool := false
  uploadEnabled : Bool := false
deriving Repr, DecidableEq

/-- Method selection of `ExecuteRequest`: POST sets `CURLOPT_POST`, PUT and
DELETE set `CURLOPT_CUSTOMREQUEST`, and **every other** method string falls
through to `CURLOPT_HTTPGET`. -/
def setMethodOpts (method : String) (c : CurlConfig) : CurlConfig :=
  if method = "POST" then { c with post := true }
  else if method = "PUT" then { c with customRequest := "PUT" }
  else if method = "DELETE" then { c with customRequest := "DELETE" }
  else { c with httpGet := true }

/-- Outcome of the option-assembly phase of `ExecuteRequest`: the assembled
config, the possibly error-annotated params, and whether the function
returned early (file-open failure). -/
structure SetupResult where
  config : CurlConfig
  params : HttpRequestParams
  earlyReturn : Bool
deriving Repr, DecidableEq

/-- Option-assembly phase of `ExecuteRequest` (napi_gmcurl.cpp), in source
order: progress wiring, method selection, timeouts, upload-file open (early
return with `errorMsg`/code 101 on failure), download-file open in append
mode iff `resumeFromOffset > 0` (early return with `errorMsg`/code 101 on
failure), resume `CURLOPT_RANGE` of the form `"<offset>-"`,
`CURLOPT_FAILONERROR` and the read-timeout override to 0 for downloads.
`uploadOpenOk` / `downloadOpenOk` model whether the respective
file-stream opens succeed. -/
def executeRequestSetup (p : HttpRequestParams) (uploadOpenOk downloadOpenOk : Bool) :
    SetupResult :=
  let c0 : CurlConfig := {}
  let c1 := if p.requestId ≠ 0 ∨ p.downloadFilePath ≠ "" ∨ p.uploadFilePath ≠ "" ∨
               p.formData ≠ [] then
              { c0 with progressEnabled := true } else c0
  let c2 := setMethodOpts p.method c1
  let c3 := { c2 with timeoutSeconds := p.readTimeout,
                      connectTimeoutSeconds := p.connectTimeout }
  if p.uploadFilePath ≠ "" ∧ uploadOpenOk = false then
    { config := c3,
      params := { p with errorMsg := "Failed to open file for upload", responseCode := 101 },
      earlyReturn := true }
  else
    let c4 := if p.uploadFilePath ≠ "" then { c3 with uploadEnabled := true } else c3
    if p.downloadFilePath ≠ "" then
      let c5 := { c4 with appendMode := p.resumeFromOffset > 0 }
      if downloadOpenOk = false then
        { config := c5,
          params := { p with errorMsg := "Failed to open downloadFile", responseCode := 101 },
          earlyReturn := true }
      else
        { config := { c5 with
            range := if p.resumeFromOffset > 0 then toString p.resumeFromOffset ++ "-"
                     else c5.range,
            failOnError := true,
            timeoutSeconds := 0 },
          params := p, earlyReturn := false }
    else
      { config := c4, params := p, earlyReturn := false }

/-- Abstracts libcurl's `curl_easy_strerror` description table; the engine
only ever uses it as an opaque fallback message, never inspects its value. -/
def curl_easy_strerror (res : Int) : String :=
  "curl error " ++ toString res

/-- Model of the external `curl_easy_perform` call, restricted to the
contract the claims rely on: when the HTTP exchange completes, the call
returns `CURLE_OK`, unless `CURLOPT_FAILONERROR` is set and the status is an
HTTP error (>= 400), in which case it returns `CURLE_HTTP_RETURNED_ERROR`;
when the exchange does not complete, it returns the transport-level error
code (libcurl produces `CURLE_HTTP_RETURNED_ERROR` only through the
fail-on-error mechanism, so `transportErr` is never 22). -/
def performResult (failOnError : Bool) (exchangeCompleted : Bool)
    (httpStatus : Int) (transportErr : Int) : Int :=
  if exchangeCompleted then
    if failOnError = true ∧ 400 ≤ httpStatus then CURLE_HTTP_RETURNED_ERROR
    else CURLE_OK
  else transportErr

/-- Result-capture phase of `ExecuteRequest` after `curl_easy_perform`:
on `CURLE_OK` the real status code, the raw header block and either the body
buffer or the literal `"download finished"` marker are stored; on failure the
code is the CURLcode — except `CURLE_HTTP_RETURNED_ERROR`, where the real
HTTP status is fetched instead — and `errorMsg` is set from
`curl_easy_strerror` only if still empty. -/
def captureResult (p : HttpRequestParams) (res : Int) (httpStatus : Int)
    (responseBody : String) (respHeaders : String) : HttpRequestParams :=
  if res = CURLE_OK then
    { p with responseCode := httpStatus,
             responseHeaders := respHeaders,
             response := if p.downloadFilePath ≠ "" then "download finished" else responseBody }
  else
    { p with responseCode := if res = CURLE_HTTP_RETURNED_ERROR then httpStatus else res,
             errorMsg := if p.errorMsg = "" then curl_easy_strerror res else p.errorMsg }

/-- The character class of C `isspace` used by the header trimming in
`ParseHeaders`. -/
def isSpaceChar (c : Char) : Bool :=
  c = ' ' || c = '\t' || c = '\n' || c = Char.ofNat 11 || c = Char.ofNat 12 || c = '\r'

/-- Trim of leading and trailing `isspace` characters, as done on header keys
and values in `ParseHeaders`. -/
def trimSpace (s : String) : String :=
  String.mk (((s.toList.dropWhile fun c => isSpaceChar c).reverse.dropWhile
    fun c => isSpaceChar c).reverse)

/-- Split a header line at its first `':'` (`line.find(":")`), returning the
key and value parts; `none` when the line has no colon. -/
def splitAtColon : List Char → Option (List Char × List Char)
  | [] => none
  | c :: rest =>
      if c = ':' then some ([], rest)
      else (splitAtColon rest).map fun q => (c :: q.1, q.2)

/-- Cut a character stream into `'\n'`-separated lines (the delimiter is
consumed), as `std::getline(stream, line, '\n')` does. -/
def splitLines : List Char → List (List Char)
  | [] => [[]]
  | c :: rest =>
      if c = '\n' then [] :: splitLines rest
      else
        match splitLines rest with
        | [] => [[c]]
        | l :: ls => (c :: l) :: ls

/-- `ParseHeaders` of napi_gmcurl.cpp: the raw header block is cut into
`'\n'`-terminated lines, each line with a colon contributes the trimmed key
and trimmed value, later duplicates overwriting earlier ones
(`headers[key] = value` on a `std::map`). -/
def ParseHeaders (headerStr : String) : List (String × String) :=
  (splitLines headerStr.toList).foldl
    (fun m line =>
      match splitAtColon line with
      | some (k, v) => alistSet m (trimSpace (String.mk k)) (trimSpace (String.mk v))
      | none => m) []

/-- Whether `pat` is a prefix of `hay` (character lists). -/
def hasPrefixChars : List Char → List Char → Bool
  | _, [] => true
  | [], _ :: _ => false
  | h :: hs, q :: qs => h = q && hasPrefixChars hs qs

/-- Whether `pat` occurs somewhere inside `hay` (character lists). -/
def hasSubstrChars (pat : List Char) : List Char → Bool
  | [] => pat.isEmpty
  | c :: rest => hasPrefixChars (c :: rest) pat || hasSubstrChars pat rest

/-- `hay.find(pat) != std::string::npos`. -/
def strContains (hay pat : String) : Bool :=
  hasSubstrChars pat.toList hay.toList

/-- The body value delivered to the caller: an ArrayBuffer or a string. -/
inductive ResponseBody where
  | binary (bytes : String)
  | text (s : String)
deriving Repr, DecidableEq

/-- The terminal delivery of a request: a Promise rejection carrying
`(code, message)` or a resolution carrying status, parsed headers and body. -/
inductive Outcome where
  | reject (code : Int) (message : String)
  | resolve (responseCode : Int) (headers : List (String × String)) (body : ResponseBody)
deriving Repr, DecidableEq

/-- Content-Type extraction in `CompleteCB`: `headersMap.find("Content-Type")`
with an empty default. -/
def contentTypeOf (headersMap : List (String × String)) : String :=
  (alistFind headersMap "Content-Type").getD ""

/-- Body-decoding branch of `CompleteCB`: an ArrayBuffer is produced iff the
Content-Type contains `application/octet-stream` or `image/` **and**
`downloadFilePath` is empty; every other case produces a string. -/
def decodeBody (p : HttpRequestParams) (headersMap : List (String × String)) :
    ResponseBody :=
  let contentType := contentTypeOf headersMap
  if (strContains contentType "application/octet-stream" ||
      strContains contentType "image/") = true ∧ p.downloadFilePath = "" then
    ResponseBody.binary p.response
  else
    ResponseBody.text p.response

/-- `CompleteCB` of napi_gmcurl.cpp (napi status and promise settlement):
a non-ok napi status rejects with `status + 1000`; a non-empty `errorMsg`
rejects with `(responseCode, errorMsg)`; otherwise the promise resolves with
the status code, the parsed headers and the decoded body.  In every case the
request's registry entry, when present and the id is non-zero, is erased. -/
def CompleteCB (napiStatus : Int) (p : HttpRequestParams) (registry : Registry) :
    Outcome × Registry :=
  let outcome :=
    if napiStatus ≠ 0 then Outcome.reject (napiStatus + 1000) p.errorMsg
    else if p.errorMsg ≠ "" then Outcome.reject p.responseCode p.errorMsg
    else
      let headersMap := ParseHeaders p.responseHeaders
      Outcome.resolve p.responseCode headersMap (decodeBody p headersMap)
  let registry' :=
    if p.requestId ≠ 0 ∧ (alistFind registry p.requestId).isSome then
      alistErase registry p.requestId
    else registry
  (outcome, registry')

/-! ### Helper lemmas -/

theorem alistFind_set_self {α β : Type} [DecidableEq α] (r : List (α × β)) (k : α) (v : β) :
    alistFind (alistSet r k v) k = some v := by
  induction r with
  | nil => simp [alistSet, alistFind]
  | cons hd tl ih =>
      obtain ⟨k', v'⟩ := hd
      by_cases h : k' = k
      · simp [alistSet, alistFind, h]
      · simp [alistSet, alistFind, h, ih]

theorem alistFind_erase_self {α β : Type} [DecidableEq α] (r : List (α × β)) (k : α) :
    alistFind (alistErase r k) k = none := by
  induction r with
  | nil => rfl
  | cons hd tl ih =>
      obtain ⟨k', v'⟩ := hd
      by_cases h : k' = k
      · simpa [alistErase, List.filter_cons, h] using ih
      · simpa [alistErase, List.filter_cons, h, alistFind] using ih

theorem uploadStep_fixed (p : HttpRequestParams) (t : Bool) (now : Nat)
    (ultotal ulnow : Int) :
    (uploadStep p t now ultotal ulnow).1.requestId = p.requestId ∧
    (uploadStep p t now ultotal ulnow).1.downloadFilePath = p.downloadFilePath ∧
    (uploadStep p t now ultotal ulnow).1.uploadFilePath = p.uploadFilePath ∧
    (uploadStep p t now ultotal ulnow).1.formData = p.formData ∧
    (uploadStep p t now ultotal ulnow).1.resumeFromOffset = p.resumeFromOffset ∧
    (uploadStep p t now ultotal ulnow).1.errorMsg = p.errorMsg := by
  unfold uploadStep; split <;> simp

theorem downloadStep_fixed (p : HttpRequestParams) (t : Bool) (now : Nat)
    (dltotal dlnow : Int) :
    (downloadStep p t now dltotal dlnow).1.requestId = p.requestId ∧
    (downloadStep p t now dltotal dlnow).1.downloadFilePath = p.downloadFilePath ∧
    (downloadStep p t now dltotal dlnow).1.uploadFilePath = p.uploadFilePath ∧
    (downloadStep p t now dltotal dlnow).1.formData = p.formData ∧
    (downloadStep p t now dltotal dlnow).1.resumeFromOffset = p.resumeFromOffset ∧
    (downloadStep p t now dltotal dlnow).1.errorMsg = p.errorMsg := by
  unfold downloadStep; split <;> simp

theorem throttleStep_requestId (p : HttpRequestParams) (t : Bool) (now : Nat)
    (dltotal dlnow ultotal ulnow : Int) :
    (throttleStep p t now dltotal dlnow ultotal ulnow).1.requestId = p.requestId := by
  unfold throttleStep
  exact (downloadStep_fixed _ t now dltotal dlnow).1.trans (uploadStep_fixed p t now ultotal ulnow).1

/-- When the registry flags the (non-zero) request id, a progress tick first
produces the throttled samples and then the poll records the canceled
message, erases the entry and returns 1. -/
theorem progress_callback_canceled (cb : RequestCallbackData) (r : Registry)
    (now : Nat) (dltotal dlnow ultotal ulnow : Int)
    (hnz : cb.params.requestId ≠ 0)
    (hflag : alistFind r cb.params.requestId = some true) :
    progress_callback cb r now dltotal dlnow ultotal ulnow =
      ({ cb with params :=
          { (throttleStep cb.params cb.hasTsfn now dltotal dlnow ultotal ulnow).1 with
              errorMsg := "Request canceled by user" } },
       alistErase r cb.params.requestId,
       (throttleStep cb.params cb.hasTsfn now dltotal dlnow ultotal ulnow).2, 1) := by
  unfold progress_callback pollCancel
  dsimp only
  rw [throttleStep_requestId]
  simp [hnz, hflag]

/-! ### Claim C1 -/

/-- Claim C1: for an in-flight cancellable request (`requestId ≠ 0`),
`cancelRequest` sets the registry flag to true only when an entry for the id
is present and never creates an entry; after a cancel of a present entry, the
next progress tick aborts the transfer (hook returns 1), the registry no
longer contains the id, and the request terminates as a rejected outcome with
the canceled error; cancelling an unknown or already-completed id leaves the
registry untouched and causes no error. -/
theorem c1_cancellation (r : Registry) (cb : RequestCallbackData) (id : Int)
    (now : Nat) (dltotal dlnow ultotal ulnow httpStatus : Int)
    (body hdrs : String) (reg2 : Registry)
    (hid : cb.params.requestId = id) (hnz : id ≠ 0) :
    (alistFind r id = none → cancelRequest r id = r) ∧
    (∀ b, alistFind r id = some b → alistFind (cancelRequest r id) id = some true) ∧
    (∀ b, alistFind r id = some b →
      (progress_callback cb (cancelRequest r id) now dltotal dlnow ultotal ulnow).2.2.2 = 1 ∧
      alistFind (progress_callback cb (cancelRequest r id) now dltotal dlnow ultotal
        ulnow).2.1 id = none ∧
      (CompleteCB 0
        (captureResult
          (progress_callback cb (cancelRequest r id) now dltotal dlnow ultotal ulnow).1.params
          CURLE_ABORTED_BY_CALLBACK httpStatus body hdrs) reg2).1 =
        Outcome.reject CURLE_ABORTED_BY_CALLBACK "Request canceled by user") := by
  refine ⟨?_, ?_, ?_⟩
  · intro hnone
    simp [cancelRequest, hnone]
  · intro b hb
    simp only [cancelRequest, hb, Option.isSome_some, if_true]
    exact alistFind_set_self r id true
  · intro b hb
    have hset : alistFind (cancelRequest r id) id = some true := by
      simp only [cancelRequest, hb, Option.isSome_some, if_true]
      exact alistFind_set_self r id true
    have hnz' : cb.params.requestId ≠ 0 := by rw [hid]; exact hnz
    have hflag : alistFind (cancelRequest r id) cb.params.requestId = some true := by
      rw [hid]; exact hset
    rw [progress_callback_canceled cb (cancelRequest r id) now dltotal dlnow ultotal ulnow
      hnz' hflag]
    refine ⟨rfl, ?_, ?_⟩
    · rw [hid]
      exact alistFind_erase_self _ id
    · simp [captureResult, CompleteCB, CURLE_ABORTED_BY_CALLBACK, CURLE_OK,
        CURLE_HTTP_RETURNED_ERROR]

/-- Witness for C1 at a concrete registry `[(5, false)]` and request id 5. -/
theorem c1_cancellation_witness :
    cancelRequest [((5 : Int), false)] 5 = [(5, true)] ∧
    (progress_callback ⟨{ requestId := 5 }, false⟩ (cancelRequest [(5, false)] 5)
      0 0 0 0 0).2.2.2 = 1 ∧
    alistFind (progress_callback ⟨{ requestId := 5 }, false⟩ (cancelRequest [(5, false)] 5)
      0 0 0 0 0).2.1 5 = none := by
  have h := c1_cancellation [(5, false)] ⟨{ requestId := 5 }, false⟩ 5 0 0 0 0 0 200 "" "" []
    rfl (by decide)
  exact ⟨by decide, (h.2.2 false (by decide)).1, (h.2.2 false (by decide)).2.1⟩

/-! ### Claim C2 -/

/-- Claim C2: for a progress sample observed for an active transfer direction
(the direction's path configured, a progress callback registered, and the
other direction inactive), the engine forwards the sample iff `totalBytes >
0`, `currentBytes` differs from the last reported byte count, and at least
one second elapsed since the last report or the transfer is complete; on
emission the stored byte count and timestamp are updated to the current
sample, and when nothing is emitted the state is unchanged. -/
theorem c2_throttle (p : HttpRequestParams) (now : Nat)
    (dltotal dlnow ultotal ulnow : Int) :
    (p.downloadFilePath ≠ "" → p.uploadFilePath = "" → p.formData = [] →
      ((throttleStep p true now dltotal dlnow ultotal ulnow).2 ≠ [] ↔
        (0 < dltotal ∧ dlnow ≠ p.lastProgress ∧
          (1 ≤ elapsedSeconds p.lastTime now ∨ dlnow = dltotal))) ∧
      ((throttleStep p true now dltotal dlnow ultotal ulnow).2 ≠ [] →
        (throttleStep p true now dltotal dlnow ultotal ulnow).2 =
          [⟨p.resumeFromOffset + dlnow, p.resumeFromOffset + dltotal⟩] ∧
        (throttleStep p true now dltotal dlnow ultotal ulnow).1.lastProgress = dlnow ∧
        (throttleStep p true now dltotal dlnow ultotal ulnow).1.lastTime = now) ∧
      ((throttleStep p true now dltotal dlnow ultotal ulnow).2 = [] →
        (throttleStep p true now dltotal dlnow ultotal ulnow).1 = p)) ∧
    (p.downloadFilePath = "" → (p.uploadFilePath ≠ "" ∨ p.formData ≠ []) →
      ((throttleStep p true now dltotal dlnow ultotal ulnow).2 ≠ [] ↔
        (0 < ultotal ∧ ulnow ≠ p.lastProgress ∧
          (1 ≤ elapsedSeconds p.lastTime now ∨ ulnow = ultotal))) ∧
      ((throttleStep p true now dltotal dlnow ultotal ulnow).2 ≠ [] →
        (throttleStep p true now dltotal dlnow ultotal ulnow).2 = [⟨ulnow, ultotal⟩] ∧
        (throttleStep p true now dltotal dlnow ultotal ulnow).1.lastProgress = ulnow ∧
        (throttleStep p true now dltotal dlnow ultotal ulnow).1.lastTime = now) ∧
      ((throttleStep p true now dltotal dlnow ultotal ulnow).2 = [] →
        (throttleStep p true now dltotal dlnow ultotal ulnow).1 = p)) := by
  constructor
  · intro hd hu hf
    have hupload : uploadStep p true now ultotal ulnow = (p, []) := by
      unfold uploadStep
      rw [if_neg]
      rintro ⟨h1, -⟩
      rcases h1 with h | h
      · exact h hu
      · exact h hf
    have hts : throttleStep p true now dltotal dlnow ultotal ulnow =
        downloadStep p true now dltotal dlnow := by
      unfold throttleStep
      rw [hupload]
      dsimp only
      simp
    rw [hts]
    by_cases hc : downloadShouldEmit p true now dltotal dlnow
    · have hcond : 0 < dltotal ∧ dlnow ≠ p.lastProgress ∧
          (1 ≤ elapsedSeconds p.lastTime now ∨ dlnow = dltotal) := by
        obtain ⟨-, -, h1, h2, h3⟩ := hc
        exact ⟨h1, h2.symm, h3⟩
      unfold downloadStep
      rw [if_pos hc]
      exact ⟨by simpa using hcond, fun _ => ⟨rfl, rfl, rfl⟩, by simp⟩
    · have hcond : ¬ (0 < dltotal ∧ dlnow ≠ p.lastProgress ∧
          (1 ≤ elapsedSeconds p.lastTime now ∨ dlnow = dltotal)) := by
        rintro ⟨h1, h2, h3⟩
        exact hc ⟨hd, rfl, h1, h2.symm, h3⟩
      unfold downloadStep
      rw [if_neg hc]
      exact ⟨by simpa using hcond, by simp, fun _ => rfl⟩
  · intro hd hup
    by_cases hc : uploadShouldEmit p true now ultotal ulnow
    · have hdown : downloadStep (uploadStep p true now ultotal ulnow).1 true now dltotal
          dlnow = ((uploadStep p true now ultotal ulnow).1, []) := by
        unfold downloadStep
        rw [if_neg]
        rintro ⟨h1, -⟩
        rw [(uploadStep_fixed p true now ultotal ulnow).2.1] at h1
        exact h1 hd
      have hts : throttleStep p true now dltotal dlnow ultotal ulnow =
          ((uploadStep p true now ultotal ulnow).1,
            (uploadStep p true now ultotal ulnow).2) := by
        unfold throttleStep
        dsimp only
        rw [hdown]
        simp
      have hcond : 0 < ultotal ∧ ulnow ≠ p.lastProgress ∧
          (1 ≤ elapsedSeconds p.lastTime now ∨ ulnow = ultotal) := by
        obtain ⟨-, -, h1, h2, h3⟩ := hc
        exact ⟨h1, h2.symm, h3⟩
      rw [hts]
      unfold uploadStep
      rw [if_pos hc]
      exact ⟨by simpa using hcond, fun _ => ⟨rfl, rfl, rfl⟩, by simp⟩
    · have hupload : uploadStep p true now ultotal ulnow = (p, []) := by
        unfold uploadStep
        rw [if_neg hc]
      have hdown : downloadStep p true now dltotal dlnow = (p, []) := by
        unfold downloadStep
        rw [if_neg]
        rintro ⟨h1, -⟩
        exact h1 hd
      have hts : throttleStep p true now dltotal dlnow ultotal ulnow = (p, []) := by
        unfold throttleStep
        rw [hupload]
        dsimp only
        rw [hdown]
        rfl
      have hcond : ¬ (0 < ultotal ∧ ulnow ≠ p.lastProgress ∧
          (1 ≤ elapsedSeconds p.lastTime now ∨ ulnow = ultotal)) := by
        rintro ⟨h1, h2, h3⟩
        exact hc ⟨hup, rfl, h1, h2.symm, h3⟩
      rw [hts]
      exact ⟨by simpa using hcond, by simp, fun _ => rfl⟩

/-- Witness for C2: a download request with a fresh throttle state emits the
sample `(50, 100)` and stores the new byte count and timestamp. -/
theorem c2_throttle_witness :
    (throttleStep { downloadFilePath := "/d" } true 2000000000 100 50 0 0).2 =
      [⟨50, 100⟩] ∧
    (throttleStep { downloadFilePath := "/d" } true 2000000000 100 50 0 0).1.lastProgress
      = 50 ∧
    (throttleStep { downloadFilePath := "/d" } true 2000000000 100 50 0 0).1.lastTime
      = 2000000000 := by
  have h := (c2_throttle { downloadFilePath := "/d" } 2000000000 100 50 0 0).1
    (by decide) rfl rfl
  have hne := h.1.mpr (by decide)
  exact ⟨(h.2.1 hne).1, (h.2.1 hne).2.1, (h.2.1 hne).2.2⟩

/-! ### Claim C3 -/

/-- Claim C3: for a download request whose target file already exists and is
non-empty with size N, the engine records N as `resumeFromOffset`, opens the
target in append (not truncate) mode, issues the byte-range option `"N-"`,
and every progress sample forwarded for the transfer reports current and
total bytes offset by N (absolute file terms). -/
theorem c3_resume (p : HttpRequestParams) (fileSize : Int) (uploadOpenOk : Bool)
    (hdl : p.downloadFilePath ≠ "") (hup : p.uploadFilePath = "")
    (hf : p.formData = []) (hN : 0 < fileSize) :
    computeResumeOffset true fileSize = fileSize ∧
    (executeRequestSetup { p with resumeFromOffset := computeResumeOffset true fileSize }
      uploadOpenOk true).config.appendMode = true ∧
    (executeRequestSetup { p with resumeFromOffset := computeResumeOffset true fileSize }
      uploadOpenOk true).config.range = toString fileSize ++ "-" ∧
    (executeRequestSetup { p with resumeFromOffset := computeResumeOffset true fileSize }
      uploadOpenOk true).earlyReturn = false ∧
    (∀ (hasTsfn : Bool) (now : Nat) (dltotal dlnow ultotal ulnow : Int)
        (sample : ProgressData),
      sample ∈ (throttleStep { p with resumeFromOffset := computeResumeOffset true fileSize }
          hasTsfn now dltotal dlnow ultotal ulnow).2 →
      sample.currentSize = fileSize + dlnow ∧ sample.totalSize = fileSize + dltotal) := by
  have hoff : computeResumeOffset true fileSize = fileSize := by
    simp [computeResumeOffset]
  refine ⟨hoff, ?_, ?_, ?_, ?_⟩
  · simp [executeRequestSetup, hdl, hup, hoff, hN]
  · simp [executeRequestSetup, hdl, hup, hoff, hN]
  · simp [executeRequestSetup, hdl, hup, hoff, hN]
  · intro hasTsfn now dltotal dlnow ultotal ulnow sample hmem
    set p' : HttpRequestParams := { p with resumeFromOffset := computeResumeOffset true fileSize }
    have hupload : uploadStep p' hasTsfn now ultotal ulnow = (p', []) := by
      unfold uploadStep
      rw [if_neg]
      rintro ⟨h1, -⟩
      rcases h1 with h | h
      · exact h (by simpa [p'] using hup)
      · exact h (by simpa [p'] using hf)
    have hts : throttleStep p' hasTsfn now dltotal dlnow ultotal ulnow =
        downloadStep p' hasTsfn now dltotal dlnow := by
      unfold throttleStep
      rw [hupload]
      dsimp only
      simp
    rw [hts] at hmem
    unfold downloadStep at hmem
    by_cases hc : downloadShouldEmit p' hasTsfn now dltotal dlnow
    · rw [if_pos hc] at hmem
      have hs : sample = ⟨p'.resumeFromOffset + dlnow, p'.resumeFromOffset + dltotal⟩ := by
        simpa using hmem
      rw [hs]
      constructor
      · simp [p', hoff]
      · simp [p', hoff]
    · rw [if_neg hc] at hmem
      simp at hmem

/-- Witness for C3 at a concrete request with a 4096-byte pre-existing
target file. -/
theorem c3_resume_witness :
    computeResumeOffset true 4096 = 4096 ∧
    (executeRequestSetup { ({ downloadFilePath := "/f" } : HttpRequestParams) with resumeFromOffset := computeResumeOffset true 4096 } true true).config.appendMode = true ∧
    (executeRequestSetup { ({ downloadFilePath := "/f" } : HttpRequestParams) with resumeFromOffset := computeResumeOffset true 4096 } true true).config.range = toString (4096 : Int) ++ "-" := by
  have h := c3_resume { downloadFilePath := "/f" } 4096 true (by decide) rfl rfl (by decide)
  exact ⟨h.1, h.2.1, h.2.2.1⟩

/-! ### Claim C4 -/

/-- Claim C4: for a successfully completed request (`curl_easy_perform`
returned `CURLE_OK`, no prior error), the promise resolves and the assembled
body is binary iff the response's Content-Type contains
`application/octet-stream` or `image/` and `downloadFilePath` was not set;
otherwise the body is text; and whenever `downloadFilePath` was set, the
body is exactly the literal string `"download finished"` regardless of the
response bytes. -/
theorem c4_body_decoding (p : HttpRequestParams) (httpStatus : Int)
    (responseBody respHeaders : String) (reg : Registry) (hok : p.errorMsg = "") :
    (CompleteCB 0 (captureResult p CURLE_OK httpStatus responseBody respHeaders) reg).1 =
      Outcome.resolve httpStatus (ParseHeaders respHeaders)
        (decodeBody (captureResult p CURLE_OK httpStatus responseBody respHeaders)
          (ParseHeaders respHeaders)) ∧
    ((∃ b, decodeBody (captureResult p CURLE_OK httpStatus responseBody respHeaders)
        (ParseHeaders respHeaders) = ResponseBody.binary b) ↔
      ((strContains (contentTypeOf (ParseHeaders respHeaders)) "application/octet-stream" ||
        strContains (contentTypeOf (ParseHeaders respHeaders)) "image/") = true ∧
        p.downloadFilePath = "")) ∧
    (p.downloadFilePath ≠ "" →
      decodeBody (captureResult p CURLE_OK httpStatus responseBody respHeaders)
        (ParseHeaders respHeaders) = ResponseBody.text "download finished") ∧
    (p.downloadFilePath = "" →
      decodeBody (captureResult p CURLE_OK httpStatus responseBody respHeaders)
        (ParseHeaders respHeaders) = ResponseBody.binary responseBody ∨
      decodeBody (captureResult p CURLE_OK httpStatus responseBody respHeaders)
        (ParseHeaders respHeaders) = ResponseBody.text responseBody) := by
  have hp : captureResult p CURLE_OK httpStatus responseBody respHeaders =
      { p with responseCode := httpStatus, responseHeaders := respHeaders,
               response := if p.downloadFilePath ≠ "" then "download finished"
                           else responseBody } := by
    simp [captureResult, CURLE_OK]
  refine ⟨?_, ?_, ?_, ?_⟩
  · rw [hp]
    simp [CompleteCB, hok]
  · rw [hp]
    by_cases hc : (strContains (contentTypeOf (ParseHeaders respHeaders))
        "application/octet-stream" ||
        strContains (contentTypeOf (ParseHeaders respHeaders)) "image/") = true ∧
        p.downloadFilePath = ""
    · simp [decodeBody, hc]
    · simp only [decodeBody]
      rw [if_neg (by simpa using hc)]
      constructor
      · rintro ⟨b, hb⟩
        exact absurd hb (by simp)
      · intro hcc
        exact absurd hcc hc
  · intro hdl
    rw [hp]
    simp only [decodeBody]
    rw [if_neg]
    · simp [hdl]
    · rintro ⟨-, h2⟩
      exact hdl (by simpa using h2)
  · intro hdl
    rw [hp]
    by_cases hc : (strContains (contentTypeOf (ParseHeaders respHeaders))
        "application/octet-stream" ||
        strContains (contentTypeOf (ParseHeaders respHeaders)) "image/") = true ∧
        p.downloadFilePath = ""
    · left
      simp [decodeBody, hc, hdl]
    · right
      simp only [decodeBody]
      rw [if_neg (by simpa using hc)]
      simp [hdl]

/-- Witness for C4: a 200 response with Content-Type `image/png` and no
download path resolves with a binary body carrying the response bytes. -/
theorem c4_body_decoding_witness :
    (CompleteCB 0 (captureResult {} CURLE_OK 200 "abc" "Content-Type: image/png") []).1 =
      Outcome.resolve 200 (ParseHeaders "Content-Type: image/png")
        (ResponseBody.binary "abc") := by
  have h := c4_body_decoding {} 200 "abc" "Content-Type: image/png" [] rfl
  rw [h.1]
  rcases h.2.2.2 rfl with hb | ht
  · rw [hb]
  · exfalso
    have hc : (strContains (contentTypeOf (ParseHeaders "Content-Type: image/png"))
        "application/octet-stream" ||
        strContains (contentTypeOf (ParseHeaders "Content-Type: image/png")) "image/") = true ∧
        ("" : String) = "" := by
      constructor
      · decide
      · rfl
    have := h.2.1.mpr hc
    rw [ht] at this
    obtain ⟨b, hbad⟩ := this
    exact ResponseBody.noConfusion hbad

/-! ### Claim C5 -/

/-- Claim C5 counterexample: at a concrete tick the request is already
flagged as cancelled, yet the progress sample of that very tick (`(50,
100)`) is still forwarded before the hook aborts the transfer — the
cancellation poll does not run first. -/
theorem c5_counterexample :
    (progress_callback ⟨{ downloadFilePath := "/d", requestId := 5 }, true⟩ [(5, true)]
      2000000000 100 50 0 0).2.2.2 = 1 ∧
    (progress_callback ⟨{ downloadFilePath := "/d", requestId := 5 }, true⟩ [(5, true)]
      2000000000 100 50 0 0).2.2.1 = [⟨50, 100⟩] := by
  decide

/-- Claim C5 (amended): within a progress tick the Cancellation Registry
poll runs **after** the progress reporting; when the request is flagged the
tick aborts the transfer, records the `Canceled` error and removes the
entry, but the samples forwarded during that same tick are exactly those the
throttler decides, so a cancelled tick can still forward one last progress
sample before aborting. -/
theorem c5_poll_after_reporting (cb : RequestCallbackData) (r : Registry)
    (now : Nat) (dltotal dlnow ultotal ulnow : Int)
    (hnz : cb.params.requestId ≠ 0)
    (hflag : alistFind r cb.params.requestId = some true) :
    (progress_callback cb r now dltotal dlnow ultotal ulnow).2.2.2 = 1 ∧
    (progress_callback cb r now dltotal dlnow ultotal ulnow).1.params.errorMsg =
      "Request canceled by user" ∧
    alistFind (progress_callback cb r now dltotal dlnow ultotal ulnow).2.1
      cb.params.requestId = none ∧
    (progress_callback cb r now dltotal dlnow ultotal ulnow).2.2.1 =
      (throttleStep cb.params cb.hasTsfn now dltotal dlnow ultotal ulnow).2 := by
  rw [progress_callback_canceled cb r now dltotal dlnow ultotal ulnow hnz hflag]
  exact ⟨rfl, rfl, alistFind_erase_self r _, rfl⟩

/-- Witness for the amended C5 at a concrete flagged request. -/
theorem c5_poll_after_reporting_witness :
    (progress_callback ⟨{ requestId := 7 }, false⟩ [(7, true)] 0 0 0 0 0).2.2.2 = 1 ∧
    (progress_callback ⟨{ requestId := 7 }, false⟩ [(7, true)] 0 0 0 0 0).1.params.errorMsg =
      "Request canceled by user" := by
  have h := c5_poll_after_reporting ⟨{ requestId := 7 }, false⟩ [(7, true)] 0 0 0 0 0
    (by decide) (by decide)
  exact ⟨h.1, h.2.1⟩

/-! ### Claim C6 -/

/-- Claim C6 counterexample: a request whose method is `"PATCH"` is not
rejected before the transfer begins — the setup phase records no error and
does not return early; it configures `CURLOPT_HTTPGET`, so the request is
executed as a GET. -/
theorem c6_counterexample :
    (executeRequestSetup { url := "http://x", method := "PATCH" } true true).config.httpGet
      = true ∧
    (executeRequestSetup { url := "http://x", method := "PATCH" } true true).params.errorMsg
      = "" ∧
    (executeRequestSetup { url := "http://x", method := "PATCH" } true true).earlyReturn
      = false := by
  decide

/-- Claim C6 (amended): a request whose method string is not POST, PUT or
DELETE is **not** rejected as an `UnsupportedMethod` validation error:
`ExecuteRequest` falls through to `CURLOPT_HTTPGET` and executes the request
as a GET; the only errors its setup phase can record are the two file-open
failures. -/
theorem c6_unknown_method_executes_as_get (p : HttpRequestParams)
    (uploadOpenOk downloadOpenOk : Bool)
    (h1 : p.method ≠ "POST") (h2 : p.method ≠ "PUT") (h3 : p.method ≠ "DELETE") :
    (executeRequestSetup p uploadOpenOk downloadOpenOk).config.httpGet = true ∧
    ((executeRequestSetup p uploadOpenOk downloadOpenOk).params.errorMsg ≠ p.errorMsg →
      (executeRequestSetup p uploadOpenOk downloadOpenOk).params.errorMsg =
        "Failed to open file for upload" ∨
      (executeRequestSetup p uploadOpenOk downloadOpenOk).params.errorMsg =
        "Failed to open downloadFile") := by
  have hm : ∀ c : CurlConfig, (setMethodOpts p.method c).httpGet = true := by
    intro c
    unfold setMethodOpts
    rw [if_neg h1, if_neg h2, if_neg h3]
  constructor
  · unfold executeRequestSetup
    dsimp only
    split
    · simp [hm]
    · split
      · split
        · simp [hm, apply_ite CurlConfig.httpGet]
        · simp [hm, apply_ite CurlConfig.httpGet]
      · simp [hm, apply_ite CurlConfig.httpGet]
  · unfold executeRequestSetup
    dsimp only
    split
    · intro _
      left
      rfl
    · split
      · split
        · intro _
          right
          rfl
        · intro hne
          exact absurd rfl hne
      · intro hne
        exact absurd rfl hne

/-- Witness for the amended C6 at the concrete method `"PATCH"`. -/
theorem c6_unknown_method_executes_as_get_witness :
    (executeRequestSetup { method := "PATCH" } true true).config.httpGet = true := by
  exact (c6_unknown_method_executes_as_get { method := "PATCH" } true true
    (by decide) (by decide) (by decide)).1

/-! ### Claim C7 -/

/-- Claim C7 counterexample: a request that uploads and downloads in the
same call, at a tick where both directions observe fresh samples.  The
download sample `(50, 200)` satisfies every throttle condition with respect
to the state the tick started from (`dltotal > 0`, `dlnow = 50` differs from
the initial `lastProgress = 0`, two seconds elapsed), yet only the upload
sample `(50, 100)` is forwarded: the upload branch updated the single shared
`lastProgress`/`lastTime` pair to `(50, now)`, which suppressed the download
emission.  The two directions do not use distinct throttle-state
instances. -/
theorem c7_counterexample :
    (throttleStep { uploadFilePath := "/u", downloadFilePath := "/d" } true 2000000000
      200 50 100 50).2 = [⟨50, 100⟩] ∧
    (0 < (200 : Int) ∧ (50 : Int) ≠
      ({ uploadFilePath := "/u", downloadFilePath := "/d" } : HttpRequestParams).lastProgress ∧
      (1 ≤ elapsedSeconds
        ({ uploadFilePath := "/u", downloadFilePath := "/d" } : HttpRequestParams).lastTime
        2000000000 ∨ (50 : Int) = 200)) := by
  decide

/-- Claim C7 (amended): the upload and download directions are throttled
through the **same** `lastProgress`/`lastTime` pair of `HttpRequestParams`:
whenever the upload branch of a tick emits, it overwrites that shared state
with `(ulnow, now)`, and the download decision of the same tick is then
evaluated against the upload branch's values — it fires only when `dlnow`
differs from `ulnow` and (`elapsedSeconds now now ≥ 1`, which is false, or
`dlnow = dltotal`). -/
theorem c7_shared_state (p : HttpRequestParams) (hasTsfn : Bool) (now : Nat)
    (dltotal dlnow ultotal ulnow : Int)
    (hup : uploadShouldEmit p hasTsfn now ultotal ulnow) :
    (uploadStep p hasTsfn now ultotal ulnow).1.lastProgress = ulnow ∧
    (uploadStep p hasTsfn now ultotal ulnow).1.lastTime = now ∧
    (downloadShouldEmit (uploadStep p hasTsfn now ultotal ulnow).1 hasTsfn now dltotal
        dlnow ↔
      (p.downloadFilePath ≠ "" ∧ hasTsfn = true ∧ 0 < dltotal ∧ ulnow ≠ dlnow ∧
        (1 ≤ elapsedSeconds now now ∨ dlnow = dltotal))) := by
  unfold uploadStep
  rw [if_pos hup]
  exact ⟨rfl, rfl, Iff.rfl⟩

/-- Witness for the amended C7: with the concrete tick of the
counterexample, the upload branch stores `(50, now)` and the download
decision consequently fails. -/
theorem c7_shared_state_witness :
    (uploadStep { uploadFilePath := "/u", downloadFilePath := "/d" } true 2000000000
      100 50).1.lastProgress = 50 ∧
    ¬ downloadShouldEmit (uploadStep { uploadFilePath := "/u", downloadFilePath := "/d" }
      true 2000000000 100 50).1 true 2000000000 200 50 := by
  have h := c7_shared_state { uploadFilePath := "/u", downloadFilePath := "/d" } true
    2000000000 200 50 100 50
    ⟨Or.inl (by decide), rfl, by decide, by decide, Or.inl (by decide)⟩
  refine ⟨h.1, fun hc => ?_⟩
  obtain ⟨-, -, -, hne, -⟩ := h.2.2.mp hc
  exact hne rfl

/-! ### Claim C8 -/

/-- Claim C8 counterexample: registering a request whose `requestID`
property is the number 0 **does** create the registry entry `0 → false` —
registration is not a no-op for id 0. -/
theorem c8_counterexample :
    alistFind (registerRequest [] (some 0)).1 0 = some false ∧
    (registerRequest [] (some 0)).2 = 0 := by
  decide

/-- Claim C8 (amended): registration inserts `id → false` whenever the
`requestID` property is supplied as a number — **including 0**; only an
absent or non-numeric `requestID` (the `napi_get_value_int32` failure
branch) leaves the registry untouched, with `requestId` defaulting to 0. -/
theorem c8_register (r : Registry) (requestIdProp : Option Int) :
    (∀ id, requestIdProp = some id →
      alistFind (registerRequest r requestIdProp).1 id = some false ∧
      (registerRequest r requestIdProp).2 = id) ∧
    (requestIdProp = none → registerRequest r requestIdProp = (r, 0)) := by
  constructor
  · rintro id rfl
    exact ⟨alistFind_set_self r id false, rfl⟩
  · rintro rfl
    rfl

/-- Witness for the amended C8 at a supplied id 9 and at an absent id. -/
theorem c8_register_witness :
    alistFind (registerRequest [] (some 9)).1 9 = some false ∧
    registerRequest [] (none : Option Int) = ([], 0) := by
  exact ⟨((c8_register [] (some 9)).1 9 rfl).1, (c8_register [] none).2 rfl⟩

/-! ### Claim C9 -/

/-- On a successful `curl_easy_perform` (`CURLE_OK`) with no prior error,
`CompleteCB` resolves the promise with the real HTTP status, the parsed
headers and the decoded body. -/
theorem completeCB_success (p : HttpRequestParams) (httpStatus : Int)
    (responseBody respHeaders : String) (reg : Registry) (hok : p.errorMsg = "") :
    (CompleteCB 0 (captureResult p CURLE_OK httpStatus responseBody respHeaders) reg).1 =
      Outcome.resolve httpStatus (ParseHeaders respHeaders)
        (decodeBody (captureResult p CURLE_OK httpStatus responseBody respHeaders)
          (ParseHeaders respHeaders)) := by
  have hp : captureResult p CURLE_OK httpStatus responseBody respHeaders =
      { p with responseCode := httpStatus, responseHeaders := respHeaders,
               response := if p.downloadFilePath ≠ "" then "download finished"
                           else responseBody } := by
    simp [captureResult, CURLE_OK]
  rw [hp]
  simp [CompleteCB, hok]

/-- Claim C9: `CURLOPT_FAILONERROR` is configured exactly for download
requests whose setup completes; hence a request without `downloadFilePath`
whose HTTP exchange completes always gets `CURLE_OK` and resolves as a
success carrying the real HTTP status code (even a 4xx/5xx), and an
`HttpStatusError` outcome (`CURLE_HTTP_RETURNED_ERROR`, with the real status
surfaced as the error code) can occur only for download requests. -/
theorem c9_fail_on_error_only_for_downloads (p : HttpRequestParams)
    (uploadOpenOk downloadOpenOk exchangeCompleted : Bool)
    (httpStatus transportErr : Int) (responseBody respHeaders : String)
    (htr : transportErr ≠ CURLE_HTTP_RETURNED_ERROR) :
    ((executeRequestSetup p uploadOpenOk downloadOpenOk).config.failOnError = true ↔
      (p.downloadFilePath ≠ "" ∧
        (executeRequestSetup p uploadOpenOk downloadOpenOk).earlyReturn = false)) ∧
    (p.downloadFilePath = "" → p.errorMsg = "" → exchangeCompleted = true →
      performResult (executeRequestSetup p uploadOpenOk downloadOpenOk).config.failOnError
        exchangeCompleted httpStatus transportErr = CURLE_OK ∧
      ∀ reg, (CompleteCB 0 (captureResult p
          (performResult
            (executeRequestSetup p uploadOpenOk downloadOpenOk).config.failOnError
            exchangeCompleted httpStatus transportErr)
          httpStatus responseBody respHeaders) reg).1 =
        Outcome.resolve httpStatus (ParseHeaders respHeaders)
          (decodeBody (captureResult p CURLE_OK httpStatus responseBody respHeaders)
            (ParseHeaders respHeaders))) ∧
    (performResult (executeRequestSetup p uploadOpenOk downloadOpenOk).config.failOnError
        exchangeCompleted httpStatus transportErr = CURLE_HTTP_RETURNED_ERROR →
      p.downloadFilePath ≠ "") := by
  have hmf : ∀ (m : String) (c : CurlConfig), (setMethodOpts m c).failOnError =
      c.failOnError := by
    intro m c
    unfold setMethodOpts
    split_ifs <;> rfl
  have hiff : (executeRequestSetup p uploadOpenOk downloadOpenOk).config.failOnError = true ↔
      (p.downloadFilePath ≠ "" ∧
        (executeRequestSetup p uploadOpenOk downloadOpenOk).earlyReturn = false) := by
    unfold executeRequestSetup
    dsimp only
    split_ifs <;> simp_all [hmf, apply_ite CurlConfig.failOnError]
  refine ⟨hiff, ?_, ?_⟩
  · intro hdl hmsg hcomp
    have hfe : (executeRequestSetup p uploadOpenOk downloadOpenOk).config.failOnError =
        false := by
      rcases Bool.eq_false_or_eq_true
        ((executeRequestSetup p uploadOpenOk downloadOpenOk).config.failOnError) with h | h
      · exact absurd (hiff.mp h).1 (by simp [hdl])
      · exact h
    rw [hcomp, hfe]
    have hres : performResult false true httpStatus transportErr = CURLE_OK := by
      simp [performResult]
    rw [hres]
    exact ⟨rfl, fun reg => completeCB_success p httpStatus responseBody respHeaders reg hmsg⟩
  · intro h22
    cases hcomp : exchangeCompleted
    · rw [hcomp] at h22
      simp [performResult] at h22
      exact absurd h22 htr
    · rw [hcomp] at h22
      by_cases hfe2 : (executeRequestSetup p uploadOpenOk
          downloadOpenOk).config.failOnError = true ∧ 400 ≤ httpStatus
      · exact (hiff.mp hfe2.1).1
      · unfold performResult at h22
        rw [if_pos rfl, if_neg hfe2] at h22
        exact absurd h22 (by decide)

/-- Witness for C9: a non-download request answered with HTTP 404 resolves
as a success carrying 404. -/
theorem c9_fail_on_error_only_for_downloads_witness :
    performResult (executeRequestSetup ({} : HttpRequestParams) true true).config.failOnError
      true 404 7 = CURLE_OK ∧
    (CompleteCB 0 (captureResult {}
        (performResult (executeRequestSetup ({} : HttpRequestParams) true true).config.failOnError
          true 404 7) 404 "not found" "") []).1 =
      Outcome.resolve 404 (ParseHeaders "")
        (decodeBody (captureResult {} CURLE_OK 404 "not found" "") (ParseHeaders "")) := by
  have h := (c9_fail_on_error_only_for_downloads {} true true true 404 7 "not found" ""
    (by decide)).2.1 rfl rfl rfl
  exact ⟨h.1, h.2 []⟩

/-! ### Claim C10 -/

/-- Claim C10: on detecting cancellation the progress hook stores the
message `"Request canceled by user"` before aborting; the result capture
substitutes the transport's own description only when the stored message is
still empty, so the pre-set message survives, and the cancelled request is
rejected with exactly that message paired with the aborted-by-callback code
42. -/
theorem c10_canceled_rejection (cb : RequestCallbackData) (r : Registry)
    (now : Nat) (dltotal dlnow ultotal ulnow httpStatus : Int)
    (responseBody respHeaders : String) (reg2 : Registry)
    (hnz : cb.params.requestId ≠ 0)
    (hflag : alistFind r cb.params.requestId = some true) :
    (progress_callback cb r now dltotal dlnow ultotal ulnow).1.params.errorMsg =
      "Request canceled by user" ∧
    (progress_callback cb r now dltotal dlnow ultotal ulnow).2.2.2 = 1 ∧
    (∀ (q : HttpRequestParams) (res : Int), res ≠ CURLE_OK →
      (captureResult q res httpStatus responseBody respHeaders).errorMsg =
        if q.errorMsg = "" then curl_easy_strerror res else q.errorMsg) ∧
    (CompleteCB 0
      (captureResult (progress_callback cb r now dltotal dlnow ultotal ulnow).1.params
        CURLE_ABORTED_BY_CALLBACK httpStatus responseBody respHeaders) reg2).1 =
      Outcome.reject 42 "Request canceled by user" := by
  rw [progress_callback_canceled cb r now dltotal dlnow ultotal ulnow hnz hflag]
  refine ⟨rfl, rfl, ?_, ?_⟩
  · intro q res hres
    simp [captureResult, hres]
  · simp [captureResult, CompleteCB, CURLE_ABORTED_BY_CALLBACK, CURLE_OK,
      CURLE_HTTP_RETURNED_ERROR]

/-- Witness for C10 at a concrete flagged request: the rejection carries
code 42 and the canceled message. -/
theorem c10_canceled_rejection_witness :
    (CompleteCB 0
      (captureResult (progress_callback ⟨{ requestId := 3 }, false⟩ [(3, true)]
          0 0 0 0 0).1.params
        CURLE_ABORTED_BY_CALLBACK 0 "" "") []).1 =
      Outcome.reject 42 "Request canceled by user" := by
  exact (c10_canceled_rejection ⟨{ requestId := 3 }, false⟩ [(3, true)] 0 0 0 0 0 0 "" "" []
    (by decide) (by decide)).2.2.2

end GMCurl
